import Mathlib

/-!
ELAN eKTF2k touchscreen driver (`drivers/input/touchscreen/ektf2k.c`).

A shallow embedding of the protocol core of the driver, and theorems about it.

Modelling conventions
* A `char` holds one byte; on the ARM target of this tree `char` is unsigned, so a
  byte is a value `0..255` (`Byte = Fin 256`) and promotes to a non-negative `int`.
* A `char *` into a buffer is the suffix of the buffer that starts at the pointer;
  `rd buffer i` is `buffer[i]`.
* `int` is a 32-bit two's complement integer: results of `*`, `/` and `-` are
  reduced by `wrap32`, signed overflow wrapping as in a kernel build
  (`-fno-strict-overflow`). Division by zero has no result (`none`).
* A function returning `0` / `-1` through `rc` returns the `Int` return code; a
  function with out-parameters returns them in an `Option`, `none` being `rc = -1`.
* The I2C adapter and the input core are outside the file: the bus is a state
  machine given as a parameter, and the calls made to the input core are returned
  as a list of events.
-/

namespace Ektf2k

/-! ## Constants -/

def EKTF2K_DATA_HELLO : Nat := 0x55
def EKTF2K_RESPONSE : Nat := 0x52
def EKTF2K_REQUEST : Nat := 0x53
def EKTF2K_WRITE : Nat := 0x54
def EKTF2K_FW_VER : Nat := 0x00
def EKTF2K_POWER_STATE : Nat := 0x50
def EKTF2K_FINGER_STATE : Nat := 0x51
def EKTF2K_HEIGHT : Nat := 0x60
def EKTF2K_WIDTH : Nat := 0x63
def EKTF2K_PACKET_STATE : Nat := 0x8e
def EKTF2K_VAL_PKT_ON : Nat := 0x00
def EKTF2K_VAL_PKT_OFF : Nat := 0x01
def EKTF2K_VAL_PWR_NORMAL : Nat := 0x01
def EKTF2K_VAL_PWR_SLEEP : Nat := 0x00
def EKTF2K_NOISE : Nat := 0x40
def EKTF2K_REPORT : Nat := 0x5D
def EKTF2K_CALIB : Nat := 0x66
def EKTF2K_VAL_NOISY : Nat := 0x41

/-- The error number `ENOMEM` of the kernel. -/
def ENOMEM : Int := 12

/-! ## Bytes and buffers -/

/-- One `char` of a buffer. -/
abbrev Byte := Fin 256

/-- The read `buffer[i]`, promoted to `int` (a non-negative value below 256). An
index past the end of the list reads 0; the reads the driver makes in a 4-byte
command buffer or a 25-byte report frame are all within the buffer. -/
def rd (buffer : List Byte) (i : Nat) : Nat := (buffer.getD i 0).val

/-- The conversion of an `int` value to a `char` on a store into a buffer. -/
def byte (v : Nat) : Byte := Fin.ofNat v

/-- The store `buffer[i] = v` (the value is truncated to a `char`). -/
def wr (buffer : List Byte) (i : Nat) (v : Nat) : List Byte := buffer.set i (byte v)

/-! ## 32-bit `int` arithmetic -/

/-- Reduction of a mathematical integer to the 32-bit two's complement `int` that
represents it. -/
def wrap32 (z : Int) : Int := (z + 2147483648) % 4294967296 - 2147483648

/-- The product `a * b` of two `int`. -/
def int_mul (a b : Int) : Int := wrap32 (a * b)

/-- The difference `a - b` of two `int`. -/
def int_sub (a b : Int) : Int := wrap32 (a - b)

/-- The quotient `a / b` of two `int`: it truncates toward zero, and it has no value
when the divisor is zero. -/
def int_div (a b : Int) : Option Int :=
  if b = 0 then none else some (wrap32 (Int.tdiv a b))

/-! ## Driver data -/

/-- The fields of `struct ektf2k_ctp_data` that the coordinate conversion reads (the
GPIO and TWI fields are left out). -/
structure ektf2k_ctp_data where
  screen_max_x : Int
  screen_max_y : Int
  revert_x_flag : Int
  revert_y_flag : Int
  exchange_x_y_flag : Int
deriving DecidableEq, Repr

/-- The fields of `struct ektf2k_data` that hold values (`client` is the `Client`
passed to the I/O functions, `input` is the list of events returned). -/
structure ektf2k_data where
  ctp_data : ektf2k_ctp_data
  firmware_version : Int
  width : Int
  height : Int
deriving DecidableEq, Repr

/-! ## Coordinate conversion -/

/-- The statement `*v = (*v * screen_max) / v_max` of `ektf2k_ctp_coordinates`
(lines 197 and 198). -/
def ektf2k_ctp_scale (v screen_max v_max : Int) : Option Int :=
  int_div (int_mul v screen_max) v_max

/-- The function `ektf2k_ctp_coordinates`; the result is the final `(*x, *y)`. -/
def ektf2k_ctp_coordinates (ctp_data : ektf2k_ctp_data) (x y x_max y_max : Int) :
    Option (Int × Int) :=
  match ektf2k_ctp_scale x ctp_data.screen_max_x x_max with
  | none => none
  | some x =>
    match ektf2k_ctp_scale y ctp_data.screen_max_y y_max with
    | none => none
    | some y =>
      let x := if ctp_data.revert_x_flag ≠ 0 then int_sub ctp_data.screen_max_x x else x
      let y := if ctp_data.revert_y_flag ≠ 0 then int_sub ctp_data.screen_max_y y else y
      if ctp_data.exchange_x_y_flag ≠ 0 then
        let t := x
        let x := y
        let y := t
        some (x, y)
      else some (x, y)

/-! ## Touch report decoder -/

/-- The function `ektf2k_report_coordinates`: `none` is the return code `-1` (the
slot is empty), `some (x, y)` is the return code `0` with the out-parameters. -/
def ektf2k_report_coordinates (buffer : List Byte) : Option (Int × Int) :=
  if rd buffer 0 = 0 ∧ rd buffer 1 = 0 ∧ rd buffer 2 = 0 then none
  else
    let x : Nat := rd buffer 0 &&& 0x0f
    let x : Nat := x <<< 8
    let x : Nat := x ||| rd buffer 2
    let y : Nat := rd buffer 0 &&& 0xf0
    let y : Nat := y <<< 4
    let y : Nat := y ||| rd buffer 1
    some ((x : Int), (y : Int))

/-! ## Input events -/

/-- The key codes the driver reports. -/
inductive KeyCode
  | BTN_TOUCH
deriving DecidableEq, Repr

/-- The absolute axes the driver reports. -/
inductive AbsCode
  | ABS_X
  | ABS_Y
  | ABS_PRESSURE
deriving DecidableEq, Repr

/-- One call into the input core. -/
inductive InputEvent
  | input_report_key (code : KeyCode) (value : Int)
  | input_report_abs (code : AbsCode) (value : Int)
  | input_mt_sync
  | input_sync
deriving DecidableEq, Repr

open KeyCode AbsCode InputEvent

/-- The `for (i = 0; i < 5; i++)` loop of `ektf2k_report`: `n` iterations remain, `i`
is the loop variable and `events` the calls made so far. The result is `none` when
a division of `ektf2k_ctp_coordinates` has no value. -/
def ektf2k_report_loop (data : ektf2k_data) (buffer : List Byte) :
    Nat → Nat → List InputEvent → Option (List InputEvent)
  | 0, _, events => some events
  | n + 1, i, events =>
    let index := 2 + i * 3
    match ektf2k_report_coordinates (buffer.drop index) with
    | none =>
      ektf2k_report_loop data buffer n (i + 1) (events ++ [input_report_key BTN_TOUCH 1])
    | some (x, y) =>
      match ektf2k_ctp_coordinates data.ctp_data x y data.width data.height with
      | none => none
      | some (x, y) =>
        ektf2k_report_loop data buffer n (i + 1)
          (events ++ [input_report_abs ABS_X x, input_report_abs ABS_Y y,
            input_report_abs ABS_PRESSURE 1, input_mt_sync])

/-- The function `ektf2k_report`: the calls it makes into the input core, in order. -/
def ektf2k_report (data : ektf2k_data) (buffer : List Byte) : Option (List InputEvent) :=
  let count := rd buffer 1 &&& 0x07
  if count > 0 then
    match ektf2k_report_loop data buffer 5 0 [] with
    | none => none
    | some events => some (events ++ [input_sync])
  else
    some [input_report_key BTN_TOUCH 0, input_mt_sync, input_sync]

/-! ## Bus transport -/

/-- One operation of the driver on the bus, with what the bus answered: the bytes
handed to `i2c_master_send` with the length asked and the count returned, the length
asked of `i2c_master_recv` with the count returned and the bytes left in the buffer,
or a sleep in milliseconds. -/
inductive BusOp
  | send (bytes : List Byte) (length : Int) (rc : Int)
  | recv (length : Int) (rc : Int) (bytes : List Byte)
  | msleep (ms : Nat)
deriving DecidableEq, Repr

/-- The I2C adapter with the device behind it, a state machine over `σ`:
`master_send` answers the count of bytes sent (or an error code), `master_recv`
answers the count of bytes received (or an error code) and the content of the
buffer afterwards. -/
structure I2cAdapter (σ : Type) where
  master_send : σ → List Byte → Int → Int × σ
  master_recv : σ → Int → Int × List Byte × σ

/-- The `struct i2c_client` of the driver: the state of the bus and the operations
made on it so far. -/
structure Client (σ : Type) where
  dev : σ
  trace : List BusOp

/-- The call `i2c_master_send(client, buffer, length)`. -/
def i2c_master_send {σ : Type} (A : I2cAdapter σ) (c : Client σ) (buffer : List Byte)
    (length : Int) : Int × Client σ :=
  let r := A.master_send c.dev buffer length
  (r.1, ⟨r.2, c.trace ++ [BusOp.send buffer length r.1]⟩)

/-- The call `i2c_master_recv(client, buffer, length)`; the second component is the
buffer afterwards. -/
def i2c_master_recv {σ : Type} (A : I2cAdapter σ) (c : Client σ) (length : Int) :
    Int × List Byte × Client σ :=
  let r := A.master_recv c.dev length
  (r.1, r.2.1, ⟨r.2.2, c.trace ++ [BusOp.recv length r.1 r.2.1]⟩)

/-- The call `msleep(ms)`. -/
def msleep {σ : Type} (c : Client σ) (ms : Nat) : Client σ :=
  ⟨c.dev, c.trace ++ [BusOp.msleep ms]⟩

/-- The function `ektf2k_send`. -/
def ektf2k_send {σ : Type} (A : I2cAdapter σ) (c : Client σ) (buffer : List Byte)
    (length : Int) : Int × Client σ :=
  let r := i2c_master_send A c buffer length
  if r.1 ≠ length then (-1, r.2) else (0, r.2)

/-- The function `ektf2k_recv`; the second component is the buffer afterwards. -/
def ektf2k_recv {σ : Type} (A : I2cAdapter σ) (c : Client σ) (length : Int) :
    Int × List Byte × Client σ :=
  let r := i2c_master_recv A c length
  if r.1 ≠ length then (-1, r.2.1, r.2.2) else (0, r.2.1, r.2.2)

/-- The function `ektf2k_transcv`; the second component is the buffer afterwards. -/
def ektf2k_transcv {σ : Type} (A : I2cAdapter σ) (c : Client σ) (buffer : List Byte)
    (length : Int) : Int × List Byte × Client σ :=
  let s := i2c_master_send A c buffer length
  if s.1 ≠ length then (-1, buffer, s.2)
  else
    let c := msleep s.2 10
    let r := i2c_master_recv A c length
    if r.1 ≠ length then (-1, r.2.1, r.2.2)
    else if rd r.2.1 0 ≠ EKTF2K_RESPONSE then (-1, r.2.1, r.2.2)
    else (0, r.2.1, r.2.2)

/-! ## Solicited messages -/

/-- The function `ektf2k_set_power_state`. -/
def ektf2k_set_power_state {σ : Type} (A : I2cAdapter σ) (c : Client σ) (enabled : Int) :
    Int × Client σ :=
  let buffer : List Byte := [byte EKTF2K_WRITE, byte EKTF2K_POWER_STATE, 0x00, 0x01]
  let buffer :=
    if enabled ≠ 0 then wr buffer 1 (rd buffer 1 ||| (EKTF2K_VAL_PWR_NORMAL <<< 3))
    else wr buffer 1 (rd buffer 1 ||| (EKTF2K_VAL_PWR_SLEEP <<< 3))
  let r := ektf2k_send A c buffer 4
  if r.1 < 0 then (-1, r.2) else (0, r.2)

/-- The function `ektf2k_get_power_state`. -/
def ektf2k_get_power_state {σ : Type} (A : I2cAdapter σ) (c : Client σ) : Int × Client σ :=
  let buffer : List Byte := [byte EKTF2K_REQUEST, byte EKTF2K_POWER_STATE, 0x00, 0x01]
  let r := ektf2k_transcv A c buffer 4
  if r.1 < 0 then (-1, r.2.2)
  else
    let state := rd r.2.1 1 &&& (1 <<< 3)
    if state = EKTF2K_VAL_PWR_SLEEP then (0, r.2.2) else (1, r.2.2)

/-- The function `ektf2k_get_firmware_infos`; the second component is `*data`
afterwards. -/
def ektf2k_get_firmware_infos {σ : Type} (A : I2cAdapter σ) (c : Client σ)
    (data : ektf2k_data) : Int × ektf2k_data × Client σ :=
  let buffer_fw_ver : List Byte := [byte EKTF2K_REQUEST, byte EKTF2K_FW_VER, 0x00, 0x01]
  let buffer_width : List Byte := [byte EKTF2K_REQUEST, byte EKTF2K_WIDTH, 0x00, 0x00]
  let buffer_height : List Byte := [byte EKTF2K_REQUEST, byte EKTF2K_HEIGHT, 0x00, 0x00]
  let r := ektf2k_transcv A c buffer_fw_ver 4
  if r.1 < 0 ∨ rd r.2.1 1 ≠ EKTF2K_FW_VER then (-1, data, r.2.2)
  else
    let data : ektf2k_data :=
      ⟨data.ctp_data, (((rd r.2.1 2 <<< 8) ||| (rd r.2.1 3 &&& 0xf0) : Nat) : Int),
        data.width, data.height⟩
    let c := msleep r.2.2 10
    let w := ektf2k_transcv A c buffer_width 4
    if w.1 < 0 ∨ rd w.2.1 1 ≠ EKTF2K_WIDTH then (-1, data, w.2.2)
    else
      let data : ektf2k_data :=
        ⟨data.ctp_data, data.firmware_version,
          ((((rd w.2.1 3 &&& 0xf0) <<< 4) ||| rd w.2.1 2 : Nat) : Int), data.height⟩
      let c := msleep w.2.2 10
      let h := ektf2k_transcv A c buffer_height 4
      if h.1 < 0 ∨ rd h.2.1 1 ≠ EKTF2K_HEIGHT then (-1, data, h.2.2)
      else
        let data : ektf2k_data :=
          ⟨data.ctp_data, data.firmware_version, data.width,
            ((((rd h.2.1 3 &&& 0xf0) <<< 4) ||| rd h.2.1 2 : Nat) : Int)⟩
        (0, data, h.2.2)

/-! ## Data messages -/

/-- The loop `for (i = 0; i < sizeof(buffer); i++)` of `ektf2k_hello`: `n` iterations
remain and `i` is the loop variable; the result is the return code. -/
def ektf2k_hello_loop (buffer : List Byte) : Nat → Nat → Int
  | 0, _ => 0
  | n + 1, i =>
    if rd buffer i ≠ EKTF2K_DATA_HELLO then -1 else ektf2k_hello_loop buffer n (i + 1)

/-- The function `ektf2k_hello`. -/
def ektf2k_hello {σ : Type} (A : I2cAdapter σ) (c : Client σ) : Int × Client σ :=
  let r := ektf2k_recv A c 4
  if r.1 < 0 then (-1, r.2.2) else (ektf2k_hello_loop r.2.1 4 0, r.2.2)

/-! ## Interrupt handler -/

/-- The function `ektf2k_irq`, after the interrupt line has been acknowledged: the
calls made into the input core (`none` when a scaling division has no value) and the
client afterwards. The noise, calibration and hello messages are only logged, and
any other message is ignored. -/
def ektf2k_irq {σ : Type} (A : I2cAdapter σ) (c : Client σ) (data : ektf2k_data) :
    Option (List InputEvent) × Client σ :=
  let r := ektf2k_recv A c 25
  if r.1 < 0 then (some [], r.2.2)
  else if rd r.2.1 0 = EKTF2K_REPORT then (ektf2k_report data r.2.1, r.2.2)
  else if rd r.2.1 0 = EKTF2K_NOISE then (some [], r.2.2)
  else if rd r.2.1 0 = EKTF2K_CALIB then (some [], r.2.2)
  else if rd r.2.1 0 = EKTF2K_DATA_HELLO then (some [], r.2.2)
  else (some [], r.2.2)

/-! ## Driver attach -/

/-- What the calls of `ektf2k_probe` into the platform and the input core answer;
these functions are outside the file. `gpio_int` is the handle that
`gpio_request_ex("ctp_para", "ctp_int_port")` returns (0 on failure), `irq` is the
constant `SW_INT_IRQNO_PIO` stored in `ektf2k_ctp_data.irq`. -/
structure Platform where
  kzalloc_ok : Bool
  ioremap_ok : Bool
  gpio_int : Int
  input_allocate_ok : Bool
  input_register_rc : Int
  irq : Int
  request_irq_rc : Int
deriving DecidableEq, Repr

/-- The return code of `ektf2k_ctp_gpio`: only a failed `ioremap` is an error, the
reset and wakeup lines may be missing. -/
def ektf2k_ctp_gpio (p : Platform) : Int :=
  if p.ioremap_ok = false then -ENOMEM else 0

/-- The return code of `ektf2k_ctp_irq_mux`: it fails when the interrupt line cannot
be requested; the register writes that follow do not fail. -/
def ektf2k_ctp_irq_mux (p : Platform) : Int :=
  if p.gpio_int = 0 then -1 else 0

/-- The return code of `ektf2k_ctp_reset`: 0 on every path; the pulse on the reset
line goes through the GPIO and is not an operation on the bus. -/
def ektf2k_ctp_reset (_p : Platform) : Int := 0

/-- The function `ektf2k_probe`: the return code, the session that stays attached
(`none` when `data` has been freed or could not be allocated) and the client
afterwards. `ctp_data` is the global `ektf2k_ctp_data`; `kzalloc` zeroes the other
fields of the session. -/
def ektf2k_probe {σ : Type} (A : I2cAdapter σ) (c : Client σ) (ctp_data : ektf2k_ctp_data)
    (p : Platform) : Int × Option ektf2k_data × Client σ :=
  if p.kzalloc_ok = false then (-ENOMEM, none, c)
  else
    let data : ektf2k_data := ⟨ctp_data, 0, 0, 0⟩
    if ektf2k_ctp_gpio p < 0 then (-1, none, c)
    else if ektf2k_ctp_irq_mux p < 0 then (-1, none, c)
    else if ektf2k_ctp_reset p < 0 then (-1, none, c)
    else
      let h := ektf2k_hello A c
      let c := msleep h.2 10
      let r := ektf2k_get_firmware_infos A c data
      if r.1 < 0 then (-1, none, r.2.2)
      else if p.input_allocate_ok = false then (-1, none, r.2.2)
      else if p.input_register_rc < 0 then (-1, none, r.2.2)
      else if p.irq ≠ 0 then
        if p.request_irq_rc < 0 then (-1, none, r.2.2) else (0, some r.2.1, r.2.2)
      else (0, some r.2.1, r.2.2)

/-! ## Devices used in the examples -/

/-- A device that accepts every send in full and answers the receives with the
frames of a script, in order (and with an error once the script is over). -/
def scriptedBus : I2cAdapter (List (List Byte)) where
  master_send s _ length := (length, s)
  master_recv s length :=
    match s with
    | [] => (-5, [], [])
    | frame :: rest => (length, frame, rest)

/-- A device that keeps a power bit: a write of the power command stores bit 3 of
its byte 1, and every receive answers a power response that echoes the stored bit. -/
def powerEchoBus : I2cAdapter Bool where
  master_send s buffer length :=
    if rd buffer 0 = EKTF2K_WRITE ∧ rd buffer 1 &&& 0xf7 = EKTF2K_POWER_STATE then
      (length, Nat.testBit (rd buffer 1) 3)
    else (length, s)
  master_recv s length :=
    (length, [byte EKTF2K_RESPONSE, byte (EKTF2K_POWER_STATE ||| (s.toNat <<< 3)), 0x00, 0x01], s)

/-- A session for the examples: an 800 by 480 screen with no revert and no exchange,
behind a sensor of 2048 by 1024. -/
def exampleData : ektf2k_data := ⟨⟨800, 480, 0, 0, 0⟩, 0, 2048, 1024⟩

/-- A report frame for the examples: the finger count is 1, the slots 0 and 2 hold
`(0x12, 0x34, 0x56)` and `(0x00, 0x00, 0x01)`, the three others are zero. -/
def exampleFrame : List Byte :=
  0x5D :: 0x01 :: 0x12 :: 0x34 :: 0x56 :: 0x00 :: 0x00 :: 0x00 :: 0x00 :: 0x00 :: 0x01
    :: List.replicate 14 0x00

/-- A script for the examples: the answers to `FW_VER`, `WIDTH` and `HEIGHT` of a
sensor of 2048 by 1024 with firmware `0x1F0`. -/
def exampleScript : List (List Byte) :=
  [[0x52, 0x00, 0x01, 0xF0], [0x52, 0x63, 0x00, 0x80], [0x52, 0x60, 0x00, 0x40]]

/-- A device that accepts every send in full and answers each receive with the next
entry of a script, a return code with the bytes left in the buffer (and with an
error once the script is over). -/
def scriptedRcBus : I2cAdapter (List (Int × List Byte)) where
  master_send s _ length := (length, s)
  master_recv s _ :=
    match s with
    | [] => (-5, [], [])
    | answer :: rest => (answer.1, answer.2, rest)

/-- The answers of `exampleScript`, each received in full (4 bytes). -/
def exampleAnswers : List (Int × List Byte) :=
  [(4, [0x52, 0x00, 0x01, 0xF0]), (4, [0x52, 0x63, 0x00, 0x80]), (4, [0x52, 0x60, 0x00, 0x40])]

/-- A platform on which every call of `ektf2k_probe` outside the driver succeeds. -/
def examplePlatform : Platform := ⟨true, true, 1, true, 0, 28, 0⟩

/-- The orientation of `exampleData`. -/
def exampleCtp : ektf2k_ctp_data := ⟨800, 480, 0, 0, 0⟩

/-- A script whose `WIDTH` answer `52 63 00 00` packs the width 0: a hello frame,
then the answers to `FW_VER`, `WIDTH` and `HEIGHT`, then the report frame
`exampleFrame`. -/
def zeroWidthScript : List (List Byte) :=
  [[0x55, 0x55, 0x55, 0x55], [0x52, 0x00, 0x01, 0xF0], [0x52, 0x63, 0x00, 0x00],
    [0x52, 0x60, 0x00, 0x40], exampleFrame]

/-! ## Specification-side definitions -/

/-- What the device answers to the 4-byte request `buffer` sent from the state `s`:
the count, the bytes and the state after of the receive that follows the send. -/
def answer {σ : Type} (A : I2cAdapter σ) (s : σ) (buffer : List Byte) : Int × List Byte × σ :=
  A.master_recv (A.master_send s buffer 4).2 4


/-- The slot packing, written from the specification: `b0` carries the high
nibbles of `x` (low half) and `y` (high half), `b1` the low byte of `y`, `b2` the
low byte of `x`. -/
def encode_slot_spec (x y : Nat) : List Byte :=
  [byte (((x >>> 8) &&& 0x0F) ||| ((y >>> 4) &&& 0xF0)),
   byte (y &&& 0xFF),
   byte (x &&& 0xFF)]

/-- Step (1) of the normalizer as the specification words it: each axis is scaled
by `v * screen_max / sensor_max`, in the `int` arithmetic of the code. -/
def scale_spec (c : ektf2k_ctp_data) (p : Int × Int) (x_max y_max : Int) : Option (Int × Int) :=
  match int_div (int_mul p.1 c.screen_max_x) x_max, int_div (int_mul p.2 c.screen_max_y) y_max with
  | some x, some y => some (x, y)
  | _, _ => none

/-- Step (2) of the normalizer as the specification words it: an axis whose revert
flag is set is replaced by its own screen maximum minus the value. -/
def revert_spec (c : ektf2k_ctp_data) (p : Int × Int) : Int × Int :=
  (if c.revert_x_flag ≠ 0 then int_sub c.screen_max_x p.1 else p.1,
   if c.revert_y_flag ≠ 0 then int_sub c.screen_max_y p.2 else p.2)

/-- Step (3) of the normalizer as the specification words it: the two axes are
swapped when the exchange flag is set. -/
def swap_spec (c : ektf2k_ctp_data) (p : Int × Int) : Int × Int :=
  if c.exchange_x_y_flag ≠ 0 then (p.2, p.1) else p

/-- The calls a slot of a report makes into the input core, as the specification
words them: nothing but the touch key for an empty slot, one position report
(X, Y, pressure, then the multi-touch separator) for any other slot. -/
def slot_events_spec (data : ektf2k_data) (slot : List Byte) : Option (List InputEvent) :=
  match ektf2k_report_coordinates slot with
  | none => some [input_report_key BTN_TOUCH 1]
  | some (x, y) =>
    match ektf2k_ctp_coordinates data.ctp_data x y data.width data.height with
    | none => none
    | some (x, y) =>
      some [input_report_abs ABS_X x, input_report_abs ABS_Y y,
        input_report_abs ABS_PRESSURE 1, input_mt_sync]

/-- The number of reports of the axis `axis` among the events `events`. -/
def countAbs (axis : AbsCode) (events : List InputEvent) : Nat :=
  events.countP fun e =>
    match e with
    | input_report_abs code _ => code == axis
    | _ => false

/-- Whether a slot (the three bytes at the pointer) is not `(0, 0, 0)`. -/
def slotNonZero (slot : List Byte) : Bool :=
  !(rd slot 0 == 0 && rd slot 1 == 0 && rd slot 2 == 0)

/-- The start offsets of the five slots of a report frame. -/
def slotOffsets : List Nat := [2, 5, 8, 11, 14]

/-! ## Arithmetic of masks and shifts -/

theorem and_0x0f (n : Nat) : n &&& 0x0f = n % 16 := Nat.and_pow_two_sub_one_eq_mod n 4

theorem and_0xff (n : Nat) : n &&& 0xff = n % 256 := Nat.and_pow_two_sub_one_eq_mod n 8

set_option maxRecDepth 100000 in
theorem and_0xf0_fin : ∀ b : Fin 256, b.val &&& 0xf0 = b.val / 16 * 16 := by decide

theorem and_0xf0 (n : Nat) (h : n < 256) : n &&& 0xf0 = n / 16 * 16 := and_0xf0_fin ⟨n, h⟩

theorem shl_or (h l k : Nat) (hl : l < 2 ^ k) : (h <<< k) ||| l = h * 2 ^ k + l := by
  rw [Nat.shiftLeft_eq, Nat.mul_comm h, Nat.mul_add_lt_is_or hl]

theorem or_mul16 (l h : Nat) (hl : l < 16) : l ||| h * 16 = l + h * 16 := by
  have h4 : l < 2 ^ 4 := by omega
  have := Nat.mul_add_lt_is_or h4 h
  rw [Nat.lor_comm, Nat.mul_comm h, show (16 : Nat) = 2 ^ 4 from rfl, ← this]
  omega

theorem mul16_shl4_or (h l : Nat) (hl : l < 256) : ((h * 16) <<< 4) ||| l = h * 256 + l := by
  have h8 : l < 2 ^ 8 := by omega
  have := Nat.mul_add_lt_is_or h8 h
  rw [Nat.shiftLeft_eq, show h * 16 * 2 ^ 4 = 2 ^ 8 * h by omega, ← this]
  omega

/-! ## Touch report decoder: slots -/

/-- C1: every slot `(b0, b1, b2)` other than `(0, 0, 0)` decodes, with
`x = ((b0 & 0x0F) << 8) | b2` and `y = ((b0 & 0xF0) << 4) | b1`, whatever follows the
slot in the buffer; the slot `(0x12, 0x34, 0x56)` decodes to `x = 598`, `y = 308`. -/
theorem report_coordinates_decodes (b0 b1 b2 : Byte) (rest : List Byte)
    (h : ¬ (b0 = 0 ∧ b1 = 0 ∧ b2 = 0)) :
    ektf2k_report_coordinates (b0 :: b1 :: b2 :: rest)
        = some (((((b0.val &&& 0x0F) <<< 8) ||| b2.val : Nat) : Int),
                ((((b0.val &&& 0xF0) <<< 4) ||| b1.val : Nat) : Int))
      ∧ ektf2k_report_coordinates [0x12, 0x34, 0x56] = some (0x256, 0x134)
      ∧ ektf2k_report_coordinates [0x12, 0x34, 0x56] = some (598, 308) := by
  refine ⟨?_, by decide, by decide⟩
  have h0 : ¬ (b0.val = 0 ∧ b1.val = 0 ∧ b2.val = 0) := by
    rintro ⟨e0, e1, e2⟩
    exact h ⟨Fin.ext e0, Fin.ext e1, Fin.ext e2⟩
  simp only [ektf2k_report_coordinates, rd, List.getD_cons_zero, List.getD_cons_succ]
  rw [if_neg h0]

theorem report_coordinates_decodes_witness :
    ¬ ((0x12 : Byte) = 0 ∧ (0x34 : Byte) = 0 ∧ (0x56 : Byte) = 0)
      ∧ ektf2k_report_coordinates [0x12, 0x34, 0x56, 0x00] = some (598, 308) :=
  ⟨by decide, (report_coordinates_decodes 0x12 0x34 0x56 [0x00] (by decide)).1⟩

/-- C2, as stated, fails at the raw point `(0, 0)`: it is packed into the slot
`(0, 0, 0)`, which the decoder takes for an empty slot and does not decode. -/
theorem roundtrip_origin_lost :
    encode_slot_spec 0 0 = [0, 0, 0]
      ∧ ektf2k_report_coordinates (encode_slot_spec 0 0) = none
      ∧ ¬ (∀ x y : Nat, x ≤ 4095 → y ≤ 4095 →
            ektf2k_report_coordinates (encode_slot_spec x y) = some ((x : Int), (y : Int))) := by
  refine ⟨by decide, by decide, ?_⟩
  intro hall
  have h := hall 0 0 (by decide) (by decide)
  revert h
  decide

/-- C2, amended: for raw `x` and `y` in `[0, 4095]`, packing `(x, y)` into a slot and
decoding the slot gives back `(x, y)` exactly, except for `(0, 0)`, whose slot is the
empty slot `(0, 0, 0)` and decodes to no point. -/
theorem roundtrip_decode_encode (x y : Nat) (hx : x ≤ 4095) (hy : y ≤ 4095) :
    ektf2k_report_coordinates (encode_slot_spec x y)
      = if x = 0 ∧ y = 0 then none else some ((x : Int), (y : Int)) := by
  have e0 : ((x >>> 8) &&& 0x0F) ||| ((y >>> 4) &&& 0xF0) = x / 256 + (y / 256) * 16 := by
    rw [and_0x0f, Nat.shiftRight_eq_div_pow, Nat.shiftRight_eq_div_pow,
      and_0xf0 _ (by omega), or_mul16 _ _ (by omega)]
    omega
  simp only [ektf2k_report_coordinates, encode_slot_spec, rd, List.getD_cons_zero,
    List.getD_cons_succ, byte, Fin.ofNat, e0, and_0xff]
  have h0 : (x / 256 + y / 256 * 16) % (255 + 1) = x / 256 + y / 256 * 16 := by omega
  have h1 : y % 256 % (255 + 1) = y % 256 := by omega
  have h2 : x % 256 % (255 + 1) = x % 256 := by omega
  simp only [h0, h1, h2]
  by_cases hxy : x = 0 ∧ y = 0
  · rw [if_pos hxy, if_pos (by omega)]
  · rw [if_neg hxy, if_neg (by omega)]
    rw [and_0x0f, and_0xf0 _ (by omega), shl_or _ _ 8 (by omega),
      mul16_shl4_or _ _ (by omega)]
    congr 2
    · congr 1; omega
    · congr 1; omega

theorem roundtrip_decode_encode_witness :
    (598 : Nat) ≤ 4095 ∧ (308 : Nat) ≤ 4095
      ∧ encode_slot_spec 598 308 = [0x12, 0x34, 0x56]
      ∧ ektf2k_report_coordinates (encode_slot_spec 598 308) = some (598, 308) :=
  ⟨by decide, by decide, by decide, roundtrip_decode_encode 598 308 (by decide) (by decide)⟩

/-! ## Touch report decoder: frames -/

/-- C3: a 25-byte report frame whose finger count `byte[1] & 0x07` is 0 makes
`ektf2k_report` emit one release (`BTN_TOUCH` with value 0), the multi-touch
separator and the final synchronization, and nothing else: no position event,
whatever the slot bytes hold. -/
theorem report_no_finger (data : ektf2k_data) (buffer : List Byte)
    (_hlen : buffer.length = 25) (hcount : rd buffer 1 &&& 0x07 = 0) :
    ektf2k_report data buffer
      = some [input_report_key BTN_TOUCH 0, input_mt_sync, input_sync] := by
  simp [ektf2k_report, hcount]

theorem report_no_finger_witness :
    (0x5D :: 0x08 :: 0x12 :: 0x34 :: 0x56 :: List.replicate 20 (0xFF : Byte)).length = 25
      ∧ rd (0x5D :: 0x08 :: 0x12 :: 0x34 :: 0x56 :: List.replicate 20 0xFF) 1 &&& 0x07 = 0
      ∧ ektf2k_report exampleData
          (0x5D :: 0x08 :: 0x12 :: 0x34 :: 0x56 :: List.replicate 20 0xFF)
        = some [input_report_key BTN_TOUCH 0, input_mt_sync, input_sync] :=
  ⟨by decide, by decide,
    report_no_finger exampleData
      (0x5D :: 0x08 :: 0x12 :: 0x34 :: 0x56 :: List.replicate 20 0xFF) (by decide) (by decide)⟩

theorem int_div_some (a b : Int) (hb : b ≠ 0) : int_div a b = some (wrap32 (Int.tdiv a b)) := by
  simp [int_div, hb]

theorem ctp_coordinates_some (c : ektf2k_ctp_data) (x y x_max y_max : Int)
    (hx : x_max ≠ 0) (hy : y_max ≠ 0) :
    ∃ q, ektf2k_ctp_coordinates c x y x_max y_max = some q := by
  simp only [ektf2k_ctp_coordinates, ektf2k_ctp_scale, int_div_some _ _ hx, int_div_some _ _ hy]
  split <;> exact ⟨_, rfl⟩

theorem report_coordinates_none_iff (slot : List Byte) :
    ektf2k_report_coordinates slot = none ↔ slotNonZero slot = false := by
  simp only [ektf2k_report_coordinates, slotNonZero]
  by_cases h : rd slot 0 = 0 ∧ rd slot 1 = 0 ∧ rd slot 2 = 0
  · simp [h]
  · rw [if_neg h]
    simp only [reduceCtorEq, false_iff]
    intro hz
    have hz3 : (rd slot 0 = 0 ∧ rd slot 1 = 0) ∧ rd slot 2 = 0 := by simpa using hz
    exact h ⟨hz3.1.1, hz3.1.2, hz3.2⟩

theorem slot_events_spec_some (data : ektf2k_data) (slot : List Byte)
    (hw : data.width ≠ 0) (hh : data.height ≠ 0) :
    ∃ e, slot_events_spec data slot = some e := by
  unfold slot_events_spec
  cases hc : ektf2k_report_coordinates slot with
  | none => exact ⟨_, rfl⟩
  | some p =>
    obtain ⟨q, hq⟩ := ctp_coordinates_some data.ctp_data p.1 p.2 data.width data.height hw hh
    simp only [hq]
    exact ⟨_, rfl⟩

theorem slot_events_spec_shape (data : ektf2k_data) (slot : List Byte) (e : List InputEvent)
    (he : slot_events_spec data slot = some e) :
    (slotNonZero slot = false → e = [input_report_key BTN_TOUCH 1])
      ∧ (slotNonZero slot = true → ∃ x y, e = [input_report_abs ABS_X x,
          input_report_abs ABS_Y y, input_report_abs ABS_PRESSURE 1, input_mt_sync]) := by
  unfold slot_events_spec at he
  cases hc : ektf2k_report_coordinates slot with
  | none =>
    have hz := (report_coordinates_none_iff slot).1 hc
    simp only [hc, Option.some.injEq] at he
    exact ⟨fun _ => he.symm, fun h => by simp [hz] at h⟩
  | some p =>
    have hz : slotNonZero slot ≠ false := fun h => by
      have := (report_coordinates_none_iff slot).2 h
      simp [hc] at this
    simp only [hc] at he
    cases hq : ektf2k_ctp_coordinates data.ctp_data p.1 p.2 data.width data.height with
    | none => simp [hq] at he
    | some q =>
      simp only [hq, Option.some.injEq] at he
      exact ⟨fun h => absurd h hz, fun _ => ⟨q.1, q.2, he.symm⟩⟩

theorem slot_events_spec_count (data : ektf2k_data) (slot : List Byte) (e : List InputEvent)
    (he : slot_events_spec data slot = some e) (axis : AbsCode) :
    countAbs axis e = if slotNonZero slot = true then 1 else 0 := by
  obtain ⟨h0, h1⟩ := slot_events_spec_shape data slot e he
  cases hz : slotNonZero slot with
  | false => rw [h0 hz]; simp [countAbs]
  | true =>
    obtain ⟨x, y, rfl⟩ := h1 hz
    cases axis <;> simp [countAbs]

theorem report_loop_step (data : ektf2k_data) (buffer : List Byte) (n i : Nat)
    (events e : List InputEvent)
    (he : slot_events_spec data (buffer.drop (2 + i * 3)) = some e) :
    ektf2k_report_loop data buffer (n + 1) i events
      = ektf2k_report_loop data buffer n (i + 1) (events ++ e) := by
  unfold slot_events_spec at he
  rw [ektf2k_report_loop]
  cases hc : ektf2k_report_coordinates (List.drop (2 + i * 3) buffer) with
  | none =>
    simp only [hc, Option.some.injEq] at he
    simp only [he]
  | some p =>
    simp only [hc] at he
    cases hq : ektf2k_ctp_coordinates data.ctp_data p.1 p.2 data.width data.height with
    | none => simp [hq] at he
    | some q =>
      simp only [hq, Option.some.injEq] at he
      simp only [hq, he]

/-- On a session whose sensor width and height are not 0, so that the scaling
divisions have a value, `ektf2k_report` on a 25-byte report frame whose finger count
`byte[1] & 0x07` is not 0 goes through the five slots at offsets 2, 5, 8, 11 and 14
in this order, whatever the finger count says, and ends with the synchronization: a
slot equal to `(0, 0, 0)` gives the touch key alone, with no position or pressure
event, every other slot gives one position report (X, Y, pressure, separator), and
so the reports of each axis are as many as the slots that are not zero. -/
theorem report_scans_all_slots (data : ektf2k_data) (buffer : List Byte)
    (_hlen : buffer.length = 25) (hcount : 0 < rd buffer 1 &&& 0x07)
    (hw : data.width ≠ 0) (hh : data.height ≠ 0) :
    ∃ e0 e1 e2 e3 e4 : List InputEvent,
      slot_events_spec data (buffer.drop 2) = some e0
        ∧ slot_events_spec data (buffer.drop 5) = some e1
        ∧ slot_events_spec data (buffer.drop 8) = some e2
        ∧ slot_events_spec data (buffer.drop 11) = some e3
        ∧ slot_events_spec data (buffer.drop 14) = some e4
        ∧ ektf2k_report data buffer = some (e0 ++ e1 ++ e2 ++ e3 ++ e4 ++ [input_sync])
        ∧ (∀ off ∈ slotOffsets, ∀ e, slot_events_spec data (buffer.drop off) = some e →
            (slotNonZero (buffer.drop off) = false → e = [input_report_key BTN_TOUCH 1])
              ∧ (slotNonZero (buffer.drop off) = true →
                  ∃ x y, e = [input_report_abs ABS_X x, input_report_abs ABS_Y y,
                    input_report_abs ABS_PRESSURE 1, input_mt_sync]))
        ∧ ∀ axis, countAbs axis (e0 ++ e1 ++ e2 ++ e3 ++ e4 ++ [input_sync])
            = slotOffsets.countP fun off => slotNonZero (buffer.drop off) := by
  obtain ⟨e0, h0⟩ := slot_events_spec_some data (buffer.drop 2) hw hh
  obtain ⟨e1, h1⟩ := slot_events_spec_some data (buffer.drop 5) hw hh
  obtain ⟨e2, h2⟩ := slot_events_spec_some data (buffer.drop 8) hw hh
  obtain ⟨e3, h3⟩ := slot_events_spec_some data (buffer.drop 11) hw hh
  obtain ⟨e4, h4⟩ := slot_events_spec_some data (buffer.drop 14) hw hh
  refine ⟨e0, e1, e2, e3, e4, h0, h1, h2, h3, h4, ?_, ?_, ?_⟩
  · have hloop : ektf2k_report_loop data buffer 5 0 []
        = some (e0 ++ e1 ++ e2 ++ e3 ++ e4) := by
      rw [report_loop_step data buffer 4 0 [] e0 h0,
        report_loop_step data buffer 3 1 _ e1 h1,
        report_loop_step data buffer 2 2 _ e2 h2,
        report_loop_step data buffer 1 3 _ e3 h3,
        report_loop_step data buffer 0 4 _ e4 h4]
      simp [ektf2k_report_loop]
    simp only [ektf2k_report, hloop]
    rw [if_pos (by simpa using hcount)]
  · intro off _ e he
    exact slot_events_spec_shape data _ e he
  · intro axis
    have c0 := slot_events_spec_count data _ e0 h0 axis
    have c1 := slot_events_spec_count data _ e1 h1 axis
    have c2 := slot_events_spec_count data _ e2 h2 axis
    have c3 := slot_events_spec_count data _ e3 h3 axis
    have c4 := slot_events_spec_count data _ e4 h4 axis
    have cs : countAbs axis [input_sync] = 0 := by simp [countAbs]
    have happ : ∀ a b : List InputEvent, countAbs axis (a ++ b) = countAbs axis a + countAbs axis b :=
      fun a b => by simp [countAbs, List.countP_append]
    rw [happ, happ, happ, happ, happ, c0, c1, c2, c3, c4, cs]
    simp only [slotOffsets, List.countP_cons, List.countP_nil]
    omega

theorem report_scans_all_slots_witness :
    exampleFrame.length = 25 ∧ rd exampleFrame 1 &&& 0x07 = 1
      ∧ ektf2k_report exampleData exampleFrame
        = some [input_report_abs ABS_X 233, input_report_abs ABS_Y 144,
            input_report_abs ABS_PRESSURE 1, input_mt_sync,
            input_report_key BTN_TOUCH 1,
            input_report_abs ABS_X 0, input_report_abs ABS_Y 0,
            input_report_abs ABS_PRESSURE 1, input_mt_sync,
            input_report_key BTN_TOUCH 1,
            input_report_key BTN_TOUCH 1,
            input_sync]
      ∧ ∃ e0 e1 e2 e3 e4 : List InputEvent,
          ektf2k_report exampleData exampleFrame
              = some (e0 ++ e1 ++ e2 ++ e3 ++ e4 ++ [input_sync])
            ∧ countAbs ABS_X (e0 ++ e1 ++ e2 ++ e3 ++ e4 ++ [input_sync]) = 2 := by
  refine ⟨by decide, by decide, by decide, ?_⟩
  obtain ⟨e0, e1, e2, e3, e4, -, -, -, -, -, hr, -, hc⟩ :=
    report_scans_all_slots exampleData exampleFrame (by decide) (by decide) (by decide)
      (by decide)
  exact ⟨e0, e1, e2, e3, e4, hr, (hc ABS_X).trans (by decide)⟩

theorem wrap32_of_fits (z : Int) (h0 : -2147483648 ≤ z) (h1 : z ≤ 2147483647) :
    wrap32 z = z := by
  unfold wrap32
  omega

theorem tdiv_fits (a b : Int) (h0 : -2147483648 ≤ a) (h1 : a ≤ 2147483647) (hb : b ≠ -1) :
    -2147483648 ≤ Int.tdiv a b ∧ Int.tdiv a b ≤ 2147483647 := by
  have h : Int.natAbs (Int.tdiv a b) = Int.natAbs a / Int.natAbs b := Int.natAbs_tdiv a b
  by_cases hb1 : b = 1
  · subst hb1; simp; omega
  · have hle : Int.natAbs a / Int.natAbs b ≤ 2147483647 := by
      by_cases hb0 : b = 0
      · subst hb0; simp
      · have h2 : 2 ≤ Int.natAbs b := by omega
        have : Int.natAbs a / Int.natAbs b ≤ Int.natAbs a / 2 :=
          Nat.div_le_div_left h2 (by decide)
        omega
    rw [← h] at hle
    omega

/-- C5: for every point `(x, y)`, all sensor maxima other than 0 and every
orientation, `ektf2k_ctp_coordinates` returns the scaling of both axes by
`v * screen_max / v_max` (step 1), then the reverts `screen_max - v` of the axes whose
flag is set (step 2), then the swap when the exchange flag is set (step 3), in the
32-bit `int` arithmetic of the code; the two quotients are the truncating quotients
of the plain integers whenever these fit in an `int`, and with all three flags set
the result is `(screen_max_y - y', screen_max_x - x')`, each revert using the maximum
of the axis as it was before the swap. -/
theorem ctp_coordinates_order (c : ektf2k_ctp_data) (x y x_max y_max : Int)
    (hx : x_max ≠ 0) (hy : y_max ≠ 0) :
    ∃ p : Int × Int,
      scale_spec c (x, y) x_max y_max = some p
        ∧ ektf2k_ctp_coordinates c x y x_max y_max = some (swap_spec c (revert_spec c p))
        ∧ p = (wrap32 (Int.tdiv (wrap32 (x * c.screen_max_x)) x_max),
               wrap32 (Int.tdiv (wrap32 (y * c.screen_max_y)) y_max))
        ∧ (-2147483648 ≤ x * c.screen_max_x → x * c.screen_max_x ≤ 2147483647 →
            -2147483648 ≤ y * c.screen_max_y → y * c.screen_max_y ≤ 2147483647 →
            x_max ≠ -1 → y_max ≠ -1 →
            p = (Int.tdiv (x * c.screen_max_x) x_max, Int.tdiv (y * c.screen_max_y) y_max))
        ∧ (c.revert_x_flag ≠ 0 → c.revert_y_flag ≠ 0 → c.exchange_x_y_flag ≠ 0 →
            ektf2k_ctp_coordinates c x y x_max y_max
              = some (int_sub c.screen_max_y p.2, int_sub c.screen_max_x p.1)) := by
  refine ⟨(wrap32 (Int.tdiv (wrap32 (x * c.screen_max_x)) x_max),
    wrap32 (Int.tdiv (wrap32 (y * c.screen_max_y)) y_max)), ?_, ?_, rfl, ?_, ?_⟩
  · simp [scale_spec, int_div, int_mul, hx, hy]
  · simp only [ektf2k_ctp_coordinates, ektf2k_ctp_scale, int_div_some _ _ hx,
      int_div_some _ _ hy, int_mul, swap_spec, revert_spec]
    split <;> rfl
  · intro a0 a1 b0 b1 hx1 hy1
    rw [wrap32_of_fits _ a0 a1, wrap32_of_fits _ b0 b1,
      wrap32_of_fits _ (tdiv_fits _ _ a0 a1 hx1).1 (tdiv_fits _ _ a0 a1 hx1).2,
      wrap32_of_fits _ (tdiv_fits _ _ b0 b1 hy1).1 (tdiv_fits _ _ b0 b1 hy1).2]
  · intro rx ry ex
    simp only [ektf2k_ctp_coordinates, ektf2k_ctp_scale, int_div_some _ _ hx,
      int_div_some _ _ hy, int_mul]
    simp [rx, ry, ex]

theorem ctp_coordinates_order_witness :
    (2048 : Int) ≠ 0 ∧ (1024 : Int) ≠ 0
      ∧ ektf2k_ctp_coordinates ⟨800, 480, 1, 0, 1⟩ 598 308 2048 1024 = some (144, 567)
      ∧ ∃ p : Int × Int,
          scale_spec ⟨800, 480, 1, 0, 1⟩ (598, 308) 2048 1024 = some p
            ∧ ektf2k_ctp_coordinates ⟨800, 480, 1, 0, 1⟩ 598 308 2048 1024
                = some (swap_spec ⟨800, 480, 1, 0, 1⟩ (revert_spec ⟨800, 480, 1, 0, 1⟩ p))
            ∧ p = (233, 144) := by
  refine ⟨by decide, by decide, by decide, ?_⟩
  obtain ⟨p, h1, h2, h3, -, -⟩ :=
    ctp_coordinates_order ⟨800, 480, 1, 0, 1⟩ 598 308 2048 1024 (by decide) (by decide)
  exact ⟨p, h1, h2, h3.trans (by decide)⟩

/-- C6, as stated, fails where the product leaves the range of an `int`: with
`screen_max = 1610612736` and `sensor_max = 1` the raw value 1 scales to
`1610612736` and the larger raw value 2 scales to `-1073741824`. -/
theorem scale_overflow_not_monotone :
    ektf2k_ctp_scale 1 1610612736 1 = some 1610612736
      ∧ ektf2k_ctp_scale 2 1610612736 1 = some (-1073741824)
      ∧ ektf2k_ctp_coordinates ⟨1610612736, 480, 0, 0, 0⟩ 1 0 1 1 = some (1610612736, 0)
      ∧ ektf2k_ctp_coordinates ⟨1610612736, 480, 0, 0, 0⟩ 2 0 1 1 = some (-1073741824, 0)
      ∧ ¬ (∀ screen_max sensor_max a b : Int, 0 ≤ screen_max → 0 < sensor_max →
            0 ≤ a → a ≤ b →
            ∃ ra rb, ektf2k_ctp_scale a screen_max sensor_max = some ra
              ∧ ektf2k_ctp_scale b screen_max sensor_max = some rb ∧ ra ≤ rb) := by
  refine ⟨by decide, by decide, by decide, by decide, ?_⟩
  intro hall
  obtain ⟨ra, rb, ha, hb, hle⟩ :=
    hall 1610612736 1 1 2 (by decide) (by decide) (by decide) (by decide)
  have ea : ektf2k_ctp_scale 1 1610612736 1 = some 1610612736 := by decide
  have eb : ektf2k_ctp_scale 2 1610612736 1 = some (-1073741824) := by decide
  rw [ea] at ha
  rw [eb] at hb
  cases ha
  cases hb
  exact absurd hle (by decide)

/-- C6, amended: the scaling step of `ektf2k_ctp_coordinates` is monotonic
non-decreasing in its input as long as the product fits in an `int`: for
`screen_max ≥ 0`, `sensor_max > 0` and `0 ≤ a ≤ b` with `b * screen_max ≤ 2147483647`,
both scalings have a value, they are the truncating quotients
`a * screen_max / sensor_max` and `b * screen_max / sensor_max`, and the first is at
most the second. -/
theorem scale_monotone (screen_max sensor_max a b : Int) (hs : 0 ≤ screen_max)
    (hm : 0 < sensor_max) (ha : 0 ≤ a) (hab : a ≤ b) (hfit : b * screen_max ≤ 2147483647) :
    ∃ ra rb : Int,
      ektf2k_ctp_scale a screen_max sensor_max = some ra
        ∧ ektf2k_ctp_scale b screen_max sensor_max = some rb
        ∧ ra = Int.tdiv (a * screen_max) sensor_max
        ∧ rb = Int.tdiv (b * screen_max) sensor_max
        ∧ ra ≤ rb := by
  have hb : 0 ≤ b := le_trans ha hab
  have pa : 0 ≤ a * screen_max := Int.mul_nonneg ha hs
  have pb : 0 ≤ b * screen_max := Int.mul_nonneg hb hs
  have pab : a * screen_max ≤ b * screen_max := Int.mul_le_mul_of_nonneg_right hab hs
  have hm0 : sensor_max ≠ 0 := by omega
  have hm1 : sensor_max ≠ -1 := by omega
  have fa := tdiv_fits (a * screen_max) sensor_max (by omega) (by omega) hm1
  have fb := tdiv_fits (b * screen_max) sensor_max (by omega) (by omega) hm1
  refine ⟨Int.tdiv (a * screen_max) sensor_max, Int.tdiv (b * screen_max) sensor_max,
    ?_, ?_, rfl, rfl, ?_⟩
  · rw [ektf2k_ctp_scale, int_mul, wrap32_of_fits _ (by omega) (by omega),
      int_div_some _ _ hm0, wrap32_of_fits _ fa.1 fa.2]
  · rw [ektf2k_ctp_scale, int_mul, wrap32_of_fits _ (by omega) (by omega),
      int_div_some _ _ hm0, wrap32_of_fits _ fb.1 fb.2]
  · rw [Int.tdiv_eq_ediv pa (le_of_lt hm), Int.tdiv_eq_ediv pb (le_of_lt hm)]
    exact Int.ediv_le_ediv hm pab

theorem scale_monotone_witness :
    (0 : Int) ≤ 800 ∧ (0 : Int) < 2048 ∧ (0 : Int) ≤ 597 ∧ (597 : Int) ≤ 598
      ∧ (598 : Int) * 800 ≤ 2147483647
      ∧ ∃ ra rb : Int,
          ektf2k_ctp_scale 597 800 2048 = some ra ∧ ektf2k_ctp_scale 598 800 2048 = some rb
            ∧ ra = Int.tdiv (597 * 800) 2048 ∧ rb = Int.tdiv (598 * 800) 2048 ∧ ra ≤ rb :=
  ⟨by decide, by decide, by decide, by decide, by decide,
    scale_monotone 800 2048 597 598 (by decide) (by decide) (by decide) (by decide)
      (by decide)⟩

/-! ## Bus transport -/

theorem transcv_unfold {σ : Type} (A : I2cAdapter σ) (c : Client σ) (buffer : List Byte)
    (length : Int) :
    ektf2k_transcv A c buffer length
      = if (A.master_send c.dev buffer length).1 ≠ length then
          (-1, buffer, ⟨(A.master_send c.dev buffer length).2,
            c.trace ++ [BusOp.send buffer length (A.master_send c.dev buffer length).1]⟩)
        else
          (if (A.master_recv (A.master_send c.dev buffer length).2 length).1 = length
              ∧ rd (A.master_recv (A.master_send c.dev buffer length).2 length).2.1 0
                  = EKTF2K_RESPONSE then 0 else -1,
            (A.master_recv (A.master_send c.dev buffer length).2 length).2.1,
            ⟨(A.master_recv (A.master_send c.dev buffer length).2 length).2.2,
              c.trace ++ [BusOp.send buffer length (A.master_send c.dev buffer length).1,
                BusOp.msleep 10,
                BusOp.recv length (A.master_recv (A.master_send c.dev buffer length).2 length).1
                  (A.master_recv (A.master_send c.dev buffer length).2 length).2.1]⟩) := by
  simp only [ektf2k_transcv, i2c_master_send, i2c_master_recv, msleep]
  by_cases hs : (A.master_send c.dev buffer length).1 = length
  · by_cases hr : (A.master_recv (A.master_send c.dev buffer length).2 length).1 = length
    · by_cases h0 : rd (A.master_recv (A.master_send c.dev buffer length).2 length).2.1 0
          = EKTF2K_RESPONSE
      · simp [hs, hr, h0]
      · simp [hs, hr, h0]
    · simp [hs, hr]
  · simp [hs]

/-- C7: for every command buffer, every length and every bus, `ektf2k_transcv`
returns 0 exactly when the send answers `length`, the receive answers `length` and
byte 0 of the response is `0x52`, and returns -1 otherwise, so it fails for each
response whose byte 0 is one of the 255 other values; it makes one send, and after
a send in full one sleep of 10 ms and one receive, never more (no retry). -/
theorem transcv_contract {σ : Type} (A : I2cAdapter σ) (c : Client σ) (buffer : List Byte)
    (length : Int) :
    (ektf2k_transcv A c buffer length).1
        = (if (A.master_send c.dev buffer length).1 = length
              ∧ (A.master_recv (A.master_send c.dev buffer length).2 length).1 = length
              ∧ rd (A.master_recv (A.master_send c.dev buffer length).2 length).2.1 0 = 0x52
            then 0 else -1)
      ∧ (∀ v : Byte, v ≠ 0x52 →
          (A.master_recv (A.master_send c.dev buffer length).2 length).2.1.head? = some v →
          (ektf2k_transcv A c buffer length).1 = -1)
      ∧ (ektf2k_transcv A c buffer length).2.2.trace
          = c.trace ++
            (if (A.master_send c.dev buffer length).1 = length then
              [BusOp.send buffer length (A.master_send c.dev buffer length).1,
                BusOp.msleep 10,
                BusOp.recv length (A.master_recv (A.master_send c.dev buffer length).2 length).1
                  (A.master_recv (A.master_send c.dev buffer length).2 length).2.1]
            else [BusOp.send buffer length (A.master_send c.dev buffer length).1]) := by
  rw [transcv_unfold]
  refine ⟨?_, ?_, ?_⟩
  · by_cases hs : (A.master_send c.dev buffer length).1 = length
    · simp [hs, EKTF2K_RESPONSE]
    · simp [hs]
  · intro v hv hhead
    have h0 : rd (A.master_recv (A.master_send c.dev buffer length).2 length).2.1 0
        ≠ EKTF2K_RESPONSE := by
      cases hl : (A.master_recv (A.master_send c.dev buffer length).2 length).2.1 with
      | nil => rw [hl] at hhead; simp at hhead
      | cons a l =>
        rw [hl] at hhead
        simp only [List.head?_cons, Option.some.injEq] at hhead
        subst hhead
        simp only [rd, List.getD_cons_zero, EKTF2K_RESPONSE]
        intro hval
        exact hv (Fin.ext hval)
    by_cases hs : (A.master_send c.dev buffer length).1 = length
    · simp [hs, h0]
    · simp [hs]
  · by_cases hs : (A.master_send c.dev buffer length).1 = length
    · simp [hs]
    · simp [hs]

theorem transcv_contract_witness :
    (ektf2k_transcv scriptedBus ⟨[[0x53, 0x50, 0x08, 0x01]], []⟩ [0x53, 0x50, 0x00, 0x01] 4).1
        = -1
      ∧ (ektf2k_transcv scriptedBus ⟨[[0x52, 0x50, 0x08, 0x01]], []⟩
          [0x53, 0x50, 0x00, 0x01] 4).1 = 0
      ∧ (ektf2k_transcv scriptedBus ⟨[[0x53, 0x50, 0x08, 0x01]], []⟩
          [0x53, 0x50, 0x00, 0x01] 4).2.2.trace
        = [BusOp.send [0x53, 0x50, 0x00, 0x01] 4 4, BusOp.msleep 10,
            BusOp.recv 4 4 [0x53, 0x50, 0x08, 0x01]] :=
  ⟨(transcv_contract scriptedBus ⟨[[0x53, 0x50, 0x08, 0x01]], []⟩ [0x53, 0x50, 0x00, 0x01]
      4).2.1 0x53 (by decide) (by decide),
    (transcv_contract scriptedBus ⟨[[0x52, 0x50, 0x08, 0x01]], []⟩ [0x53, 0x50, 0x00, 0x01]
      4).1.trans (by decide),
    (transcv_contract scriptedBus ⟨[[0x53, 0x50, 0x08, 0x01]], []⟩ [0x53, 0x50, 0x00, 0x01]
      4).2.2.trans (by decide)⟩

/-! ## Solicited messages -/

theorem send_unfold {σ : Type} (A : I2cAdapter σ) (c : Client σ) (buffer : List Byte)
    (length : Int) :
    ektf2k_send A c buffer length
      = (if (A.master_send c.dev buffer length).1 = length then 0 else -1,
          ⟨(A.master_send c.dev buffer length).2,
            c.trace ++ [BusOp.send buffer length (A.master_send c.dev buffer length).1]⟩) := by
  simp only [ektf2k_send, i2c_master_send]
  by_cases hs : (A.master_send c.dev buffer length).1 = length
  · simp [hs]
  · simp [hs]

/-- C8, as stated, fails when enabling: the frame sent by `ektf2k_set_power_state`
with `enabled = 1` is `54 58 00 01`; its command byte is `0x58` and not `0x50`, and
bit 3 of its third byte (paramHi) is 0. -/
theorem set_power_state_enable_frame :
    (ektf2k_set_power_state scriptedBus ⟨[], []⟩ 1).2.trace
        = [BusOp.send [0x54, 0x58, 0x00, 0x01] 4 4]
      ∧ rd [0x54, 0x58, 0x00, 0x01] 1 ≠ EKTF2K_POWER_STATE
      ∧ Nat.testBit (rd [0x54, 0x58, 0x00, 0x01] 2) 3 = false := by
  refine ⟨by decide, by decide, by decide⟩

/-- C8, amended: for every value of the enabled flag and every bus,
`ektf2k_set_power_state` makes one send of a 4-byte frame and nothing else; byte 0
of the frame is the write marker `0x54`, byte 1 is the command `POWER_STATE = 0x50`
with its bit 3 set when enabling (`0x58`, normal mode) and clear when disabling
(`0x50`, sleep), and bytes 2 and 3 are `0x00` and `0x01` in both cases. The result is
0 when the bus answers 4 and -1 otherwise. -/
theorem set_power_state_frame {σ : Type} (A : I2cAdapter σ) (c : Client σ) (enabled : Int) :
    (ektf2k_set_power_state A c enabled).2.trace
        = c.trace ++ [BusOp.send [0x54, if enabled ≠ 0 then 0x58 else 0x50, 0x00, 0x01] 4
            (A.master_send c.dev
              [0x54, if enabled ≠ 0 then 0x58 else 0x50, 0x00, 0x01] 4).1]
      ∧ (ektf2k_set_power_state A c enabled).1
        = (if (A.master_send c.dev
              [0x54, if enabled ≠ 0 then 0x58 else 0x50, 0x00, 0x01] 4).1 = 4
            then 0 else -1)
      ∧ rd [0x54, if enabled ≠ 0 then 0x58 else 0x50, 0x00, 0x01] 0 = EKTF2K_WRITE
      ∧ rd [0x54, if enabled ≠ 0 then 0x58 else 0x50, 0x00, 0x01] 1
        = EKTF2K_POWER_STATE ||| ((if enabled ≠ 0 then 1 else 0) <<< 3)
      ∧ Nat.testBit (rd [0x54, if enabled ≠ 0 then 0x58 else 0x50, 0x00, 0x01] 1) 3
        = decide (enabled ≠ 0)
      ∧ rd [0x54, if enabled ≠ 0 then 0x58 else 0x50, 0x00, 0x01] 2 = 0
      ∧ rd [0x54, if enabled ≠ 0 then 0x58 else 0x50, 0x00, 0x01] 3 = 1 := by
  have hon : wr [byte EKTF2K_WRITE, byte EKTF2K_POWER_STATE, 0x00, 0x01] 1
      (rd [byte EKTF2K_WRITE, byte EKTF2K_POWER_STATE, 0x00, 0x01] 1
        ||| (EKTF2K_VAL_PWR_NORMAL <<< 3)) = [0x54, 0x58, 0x00, 0x01] := by decide
  have hoff : wr [byte EKTF2K_WRITE, byte EKTF2K_POWER_STATE, 0x00, 0x01] 1
      (rd [byte EKTF2K_WRITE, byte EKTF2K_POWER_STATE, 0x00, 0x01] 1
        ||| (EKTF2K_VAL_PWR_SLEEP <<< 3)) = [0x54, 0x50, 0x00, 0x01] := by decide
  by_cases he : enabled = 0
  · subst he
    simp only [ektf2k_set_power_state, send_unfold, hoff, ne_eq, not_true_eq_false, if_false]
    refine ⟨?_, ?_, by decide, by decide, by decide, by decide, by decide⟩ <;>
      by_cases hs : (A.master_send c.dev [0x54, 0x50, 0x00, 0x01] 4).1 = 4 <;> simp [hs]
  · simp only [ektf2k_set_power_state, send_unfold, hon, ne_eq, he, not_false_eq_true, if_true]
    refine ⟨?_, ?_, by decide, by decide, by decide, by decide, by decide⟩ <;>
      by_cases hs : (A.master_send c.dev [0x54, 0x58, 0x00, 0x01] 4).1 = 4 <;> simp [hs]

set_option maxRecDepth 100000 in
theorem and_8_fin : ∀ b : Fin 256, (b.val &&& 8 = 0) = (Nat.testBit b.val 3 = false) := by
  decide

theorem rd_lt (buffer : List Byte) (i : Nat) : rd buffer i < 256 := (buffer.getD i 0).isLt

theorem transcv_rc_nonneg {σ : Type} (A : I2cAdapter σ) (c : Client σ) (buffer : List Byte)
    (length : Int) :
    ¬ (ektf2k_transcv A c buffer length).1 < 0 ↔ (ektf2k_transcv A c buffer length).1 = 0 := by
  rw [transcv_unfold]
  split
  · simp
  · split <;> simp

/-- C9: when the transaction of `ektf2k_get_power_state` is accepted (both transfers
in full and response byte 0 equal to `0x52`), the function returns 1 if bit 3 of
response byte 1 is 1 and 0 if that bit is 0; no other bit of the response has a part
in the result. -/
theorem get_power_state_bit3 {σ : Type} (A : I2cAdapter σ) (c : Client σ)
    (hrc : (ektf2k_transcv A c [0x53, 0x50, 0x00, 0x01] 4).1 = 0) :
    rd (ektf2k_transcv A c [0x53, 0x50, 0x00, 0x01] 4).2.1 0 = 0x52
      ∧ (ektf2k_get_power_state A c).1
        = (if Nat.testBit (rd (ektf2k_transcv A c [0x53, 0x50, 0x00, 0x01] 4).2.1 1) 3
            then 1 else 0)
      ∧ (ektf2k_transcv A c [0x53, 0x50, 0x00, 0x01] 4).2.1
        = (A.master_recv (A.master_send c.dev [0x53, 0x50, 0x00, 0x01] 4).2 4).2.1 := by
  have hbuf : ([byte EKTF2K_REQUEST, byte EKTF2K_POWER_STATE, 0x00, 0x01] : List Byte)
      = [0x53, 0x50, 0x00, 0x01] := by decide
  refine ⟨?_, ?_, ?_⟩
  · rw [transcv_unfold] at hrc ⊢
    split at hrc
    · simp at hrc
    · rename_i hs
      split at hrc
      · rename_i hok
        rw [if_neg hs]
        exact hok.2
      · simp at hrc
  · simp only [ektf2k_get_power_state, hbuf, show (1 <<< 3 : Nat) = 8 from rfl]
    rw [if_neg (by rw [hrc]; decide)]
    have hb := and_8_fin ⟨_, rd_lt (ektf2k_transcv A c [0x53, 0x50, 0x00, 0x01] 4).2.1 1⟩
    simp only at hb
    by_cases hz : rd (ektf2k_transcv A c [0x53, 0x50, 0x00, 0x01] 4).2.1 1 &&& 8 = 0
    · have ht := hb.mp hz
      simp [EKTF2K_VAL_PWR_SLEEP, hz, ht]
    · have ht : ¬ Nat.testBit (rd (ektf2k_transcv A c [0x53, 0x50, 0x00, 0x01] 4).2.1 1) 3
          = false := fun h => hz (hb.mpr h)
      simp only [Bool.not_eq_false] at ht
      simp [EKTF2K_VAL_PWR_SLEEP, hz, ht]
  · rw [transcv_unfold]
    split
    · rename_i hs
      rw [transcv_unfold, if_pos hs] at hrc
      simp at hrc
    · rfl

theorem get_power_state_bit3_witness :
    (ektf2k_transcv powerEchoBus (ektf2k_set_power_state powerEchoBus ⟨false, []⟩ 1).2
        [0x53, 0x50, 0x00, 0x01] 4).1 = 0
      ∧ (ektf2k_get_power_state powerEchoBus
          (ektf2k_set_power_state powerEchoBus ⟨false, []⟩ 1).2).1 = 1
      ∧ (ektf2k_transcv powerEchoBus (ektf2k_set_power_state powerEchoBus ⟨true, []⟩ 0).2
          [0x53, 0x50, 0x00, 0x01] 4).1 = 0
      ∧ (ektf2k_get_power_state powerEchoBus
          (ektf2k_set_power_state powerEchoBus ⟨true, []⟩ 0).2).1 = 0 :=
  ⟨by decide,
    (get_power_state_bit3 powerEchoBus (ektf2k_set_power_state powerEchoBus ⟨false, []⟩ 1).2
      (by decide)).2.1.trans (by decide),
    by decide,
    (get_power_state_bit3 powerEchoBus (ektf2k_set_power_state powerEchoBus ⟨true, []⟩ 0).2
      (by decide)).2.1.trans (by decide)⟩

theorem transcv_accepted {σ : Type} (A : I2cAdapter σ) (c : Client σ) (buffer : List Byte)
    (length : Int) (hrc : (ektf2k_transcv A c buffer length).1 = 0) :
    rd (ektf2k_transcv A c buffer length).2.1 0 = 0x52
      ∧ (ektf2k_transcv A c buffer length).2.2.trace
        = c.trace ++ [BusOp.send buffer length length, BusOp.msleep 10,
            BusOp.recv length length (ektf2k_transcv A c buffer length).2.1] := by
  rw [transcv_unfold] at hrc ⊢
  by_cases hs : (A.master_send c.dev buffer length).1 = length
  · rw [if_neg (by simpa using hs)] at hrc ⊢
    by_cases hok : (A.master_recv (A.master_send c.dev buffer length).2 length).1 = length
        ∧ rd (A.master_recv (A.master_send c.dev buffer length).2 length).2.1 0
          = EKTF2K_RESPONSE
    · refine ⟨hok.2, ?_⟩
      simp only [hs, hok.1]
    · simp [hok] at hrc
  · rw [if_pos (by simpa using hs)] at hrc
    simp at hrc

theorem transcv_ok_iff {σ : Type} (A : I2cAdapter σ) (c : Client σ) (buffer : List Byte) :
    (ektf2k_transcv A c buffer 4).1 = 0
      ↔ (A.master_send c.dev buffer 4).1 = 4 ∧ (answer A c.dev buffer).1 = 4
          ∧ rd (answer A c.dev buffer).2.1 0 = 0x52 := by
  rw [transcv_unfold]
  simp only [answer, EKTF2K_RESPONSE]
  by_cases hs : (A.master_send c.dev buffer 4).1 = 4
  · by_cases hr : (A.master_recv (A.master_send c.dev buffer 4).2 4).1 = 4
    · by_cases h0 : rd (A.master_recv (A.master_send c.dev buffer 4).2 4).2.1 0 = 0x52
      · simp [hs, hr, h0]
      · simp [hs, hr, h0]
    · simp [hs, hr]
  · simp [hs]

theorem transcv_ok_answer {σ : Type} (A : I2cAdapter σ) (c : Client σ) (buffer : List Byte)
    (hrc : (ektf2k_transcv A c buffer 4).1 = 0) :
    (ektf2k_transcv A c buffer 4).2.1 = (answer A c.dev buffer).2.1
      ∧ (ektf2k_transcv A c buffer 4).2.2.dev = (answer A c.dev buffer).2.2 := by
  have hs := ((transcv_ok_iff A c buffer).1 hrc).1
  rw [transcv_unfold]
  simp [hs, answer]

/-- C10: with `r`, `w` and `h` the answers of the device to the `FW_VER`, `WIDTH` and
`HEIGHT` requests, each sent from the state the answer before left,
`ektf2k_get_firmware_infos` returns 0 exactly when the three sends and the three
receives are made in full and each answer carries the marker `0x52` and the echo of
its command; whenever it returns 0 the session holds
`firmware_version = (r[2] << 8) | (r[3] & 0xF0)`, `width = ((w[3] & 0xF0) << 4) | w[2]`
and `height = ((h[3] & 0xF0) << 4) | h[2]`, the orientation is untouched, the device
is left in the state after `h`, and the bus has seen the three exchanges and nothing
else; a `FW_VER` answer `52 00 01 F0` gives `firmware_version = 496`. -/
theorem get_firmware_infos_fields {σ : Type} (A : I2cAdapter σ) (c : Client σ)
    (data : ektf2k_data) (r w h : Int × List Byte × σ)
    (hr : r = answer A c.dev [0x53, 0x00, 0x00, 0x01])
    (hw : w = answer A r.2.2 [0x53, 0x63, 0x00, 0x00])
    (hh : h = answer A w.2.2 [0x53, 0x60, 0x00, 0x00]) :
    ((ektf2k_get_firmware_infos A c data).1 = 0
        ↔ ((A.master_send c.dev [0x53, 0x00, 0x00, 0x01] 4).1 = 4 ∧ r.1 = 4
              ∧ rd r.2.1 0 = 0x52 ∧ rd r.2.1 1 = 0x00)
            ∧ ((A.master_send r.2.2 [0x53, 0x63, 0x00, 0x00] 4).1 = 4 ∧ w.1 = 4
              ∧ rd w.2.1 0 = 0x52 ∧ rd w.2.1 1 = 0x63)
            ∧ ((A.master_send w.2.2 [0x53, 0x60, 0x00, 0x00] 4).1 = 4 ∧ h.1 = 4
              ∧ rd h.2.1 0 = 0x52 ∧ rd h.2.1 1 = 0x60))
      ∧ ((ektf2k_get_firmware_infos A c data).1 = 0 →
          (ektf2k_get_firmware_infos A c data).2.1.firmware_version
              = (((rd r.2.1 2 <<< 8) ||| (rd r.2.1 3 &&& 0xF0) : Nat) : Int)
            ∧ (ektf2k_get_firmware_infos A c data).2.1.width
              = ((((rd w.2.1 3 &&& 0xF0) <<< 4) ||| rd w.2.1 2 : Nat) : Int)
            ∧ (ektf2k_get_firmware_infos A c data).2.1.height
              = ((((rd h.2.1 3 &&& 0xF0) <<< 4) ||| rd h.2.1 2 : Nat) : Int)
            ∧ (ektf2k_get_firmware_infos A c data).2.1.ctp_data = data.ctp_data
            ∧ (ektf2k_get_firmware_infos A c data).2.2.dev = h.2.2
            ∧ (ektf2k_get_firmware_infos A c data).2.2.trace
              = c.trace ++
                [BusOp.send [0x53, 0x00, 0x00, 0x01] 4 4, BusOp.msleep 10,
                  BusOp.recv 4 4 r.2.1, BusOp.msleep 10,
                  BusOp.send [0x53, 0x63, 0x00, 0x00] 4 4, BusOp.msleep 10,
                  BusOp.recv 4 4 w.2.1, BusOp.msleep 10,
                  BusOp.send [0x53, 0x60, 0x00, 0x00] 4 4, BusOp.msleep 10,
                  BusOp.recv 4 4 h.2.1]
            ∧ (r.2.1 = [0x52, 0x00, 0x01, 0xF0] →
                (ektf2k_get_firmware_infos A c data).2.1.firmware_version = 496)) := by
  have hfw : ([byte EKTF2K_REQUEST, byte EKTF2K_FW_VER, 0x00, 0x01] : List Byte)
      = [0x53, 0x00, 0x00, 0x01] := by decide
  have hwd : ([byte EKTF2K_REQUEST, byte EKTF2K_WIDTH, 0x00, 0x00] : List Byte)
      = [0x53, 0x63, 0x00, 0x00] := by decide
  have hht : ([byte EKTF2K_REQUEST, byte EKTF2K_HEIGHT, 0x00, 0x00] : List Byte)
      = [0x53, 0x60, 0x00, 0x00] := by decide
  simp only [ektf2k_get_firmware_infos, hfw, hwd, hht]
  simp only [EKTF2K_FW_VER, EKTF2K_WIDTH, EKTF2K_HEIGHT]
  have k1 := transcv_ok_iff A c [0x53, 0x00, 0x00, 0x01]
  have n1 := transcv_rc_nonneg A c [0x53, 0x00, 0x00, 0x01] 4
  have a1 := transcv_ok_answer A c [0x53, 0x00, 0x00, 0x01]
  have m1 := transcv_accepted A c [0x53, 0x00, 0x00, 0x01] 4
  rw [← hr] at k1 a1
  generalize ektf2k_transcv A c [0x53, 0x00, 0x00, 0x01] 4 = t1 at k1 n1 a1 m1 ⊢
  have k2 := transcv_ok_iff A (msleep t1.2.2 10) [0x53, 0x63, 0x00, 0x00]
  have n2 := transcv_rc_nonneg A (msleep t1.2.2 10) [0x53, 0x63, 0x00, 0x00] 4
  have a2 := transcv_ok_answer A (msleep t1.2.2 10) [0x53, 0x63, 0x00, 0x00]
  have m2 := transcv_accepted A (msleep t1.2.2 10) [0x53, 0x63, 0x00, 0x00] 4
  generalize ektf2k_transcv A (msleep t1.2.2 10) [0x53, 0x63, 0x00, 0x00] 4 = t2
    at k2 n2 a2 m2 ⊢
  have k3 := transcv_ok_iff A (msleep t2.2.2 10) [0x53, 0x60, 0x00, 0x00]
  have n3 := transcv_rc_nonneg A (msleep t2.2.2 10) [0x53, 0x60, 0x00, 0x00] 4
  have a3 := transcv_ok_answer A (msleep t2.2.2 10) [0x53, 0x60, 0x00, 0x00]
  have m3 := transcv_accepted A (msleep t2.2.2 10) [0x53, 0x60, 0x00, 0x00] 4
  generalize ektf2k_transcv A (msleep t2.2.2 10) [0x53, 0x60, 0x00, 0x00] 4 = t3
    at k3 n3 a3 m3 ⊢
  simp only [msleep] at k2 a2 m2 k3 a3 m3
  by_cases g1 : t1.1 < 0 ∨ rd t1.2.1 1 ≠ 0
  · rw [if_pos g1]
    refine ⟨⟨fun e => by simp at e, fun q => ?_⟩, fun e => by simp at e⟩
    exfalso
    have z1 : t1.1 = 0 := k1.2 ⟨q.1.1, q.1.2.1, q.1.2.2.1⟩
    rcases g1 with g | g
    · omega
    · exact g (by rw [(a1 z1).1]; exact q.1.2.2.2)
  · rw [if_neg g1]
    have z1 : t1.1 = 0 := n1.1 (fun e => g1 (Or.inl e))
    have y1 : rd t1.2.1 1 = 0 := by
      by_contra e
      exact g1 (Or.inr e)
    obtain ⟨b1, d1⟩ := a1 z1
    rw [d1, ← hw] at k2 a2
    by_cases g2 : t2.1 < 0 ∨ rd t2.2.1 1 ≠ 0x63
    · rw [if_pos g2]
      refine ⟨⟨fun e => by simp at e, fun q => ?_⟩, fun e => by simp at e⟩
      exfalso
      have z2 : t2.1 = 0 := k2.2 ⟨q.2.1.1, q.2.1.2.1, q.2.1.2.2.1⟩
      rcases g2 with g | g
      · omega
      · exact g (by rw [(a2 z2).1]; exact q.2.1.2.2.2)
    · rw [if_neg g2]
      have z2 : t2.1 = 0 := n2.1 (fun e => g2 (Or.inl e))
      have y2 : rd t2.2.1 1 = 0x63 := by
        by_contra e
        exact g2 (Or.inr e)
      obtain ⟨b2, d2⟩ := a2 z2
      rw [d2, ← hh] at k3 a3
      by_cases g3 : t3.1 < 0 ∨ rd t3.2.1 1 ≠ 0x60
      · rw [if_pos g3]
        refine ⟨⟨fun e => by simp at e, fun q => ?_⟩, fun e => by simp at e⟩
        exfalso
        have z3 : t3.1 = 0 := k3.2 ⟨q.2.2.1, q.2.2.2.1, q.2.2.2.2.1⟩
        rcases g3 with g | g
        · omega
        · exact g (by rw [(a3 z3).1]; exact q.2.2.2.2.2)
      · rw [if_neg g3]
        have z3 : t3.1 = 0 := n3.1 (fun e => g3 (Or.inl e))
        have y3 : rd t3.2.1 1 = 0x60 := by
          by_contra e
          exact g3 (Or.inr e)
        obtain ⟨b3, d3⟩ := a3 z3
        have q1 := k1.1 z1
        have q2 := k2.1 z2
        have q3 := k3.1 z3
        refine ⟨⟨fun _ => ⟨⟨q1.1, q1.2.1, q1.2.2, by rw [← b1]; exact y1⟩,
          ⟨q2.1, q2.2.1, q2.2.2, by rw [← b2]; exact y2⟩,
          ⟨q3.1, q3.2.1, q3.2.2, by rw [← b3]; exact y3⟩⟩, fun _ => rfl⟩, fun _ => ?_⟩
        refine ⟨by rw [← b1], by rw [← b2], by rw [← b3], rfl, d3, ?_, ?_⟩
        · have e1 := (m1 z1).2
          have e2 := (m2 z2).2
          have e3 := (m3 z3).2
          dsimp only
          rw [e3, e2, e1, b1, b2, b3]
          simp
        · intro e
          rw [← b1] at e
          dsimp only
          rw [e]
          decide

theorem get_firmware_infos_fields_witness :
    answer scriptedBus exampleScript [0x53, 0x00, 0x00, 0x01]
        = (4, [0x52, 0x00, 0x01, 0xF0], exampleScript.tail)
      ∧ (ektf2k_get_firmware_infos scriptedBus ⟨exampleScript, []⟩
          ⟨⟨800, 480, 0, 0, 0⟩, 0, 0, 0⟩).1 = 0
      ∧ (ektf2k_get_firmware_infos scriptedBus ⟨exampleScript, []⟩
          ⟨⟨800, 480, 0, 0, 0⟩, 0, 0, 0⟩).2.1.firmware_version = 496
      ∧ (ektf2k_get_firmware_infos scriptedBus ⟨exampleScript, []⟩
          ⟨⟨800, 480, 0, 0, 0⟩, 0, 0, 0⟩).2.1 = ⟨⟨800, 480, 0, 0, 0⟩, 496, 2048, 1024⟩ := by
  have T := get_firmware_infos_fields scriptedBus ⟨exampleScript, []⟩
    ⟨⟨800, 480, 0, 0, 0⟩, 0, 0, 0⟩
    (answer scriptedBus exampleScript [0x53, 0x00, 0x00, 0x01])
    (answer scriptedBus
      (answer scriptedBus exampleScript [0x53, 0x00, 0x00, 0x01]).2.2 [0x53, 0x63, 0x00, 0x00])
    (answer scriptedBus
      (answer scriptedBus
        (answer scriptedBus exampleScript [0x53, 0x00, 0x00, 0x01]).2.2
        [0x53, 0x63, 0x00, 0x00]).2.2 [0x53, 0x60, 0x00, 0x00])
    rfl rfl rfl
  have hrc := T.1.2 (by decide)
  exact ⟨by decide, hrc, (T.2 hrc).2.2.2.2.2.2 (by decide), by decide⟩

/-! ## Driver attach: the hello frame -/

theorem recv_unfold {σ : Type} (A : I2cAdapter σ) (c : Client σ) (length : Int) :
    ektf2k_recv A c length
      = (if (A.master_recv c.dev length).1 = length then 0 else -1,
          (A.master_recv c.dev length).2.1,
          ⟨(A.master_recv c.dev length).2.2,
            c.trace ++ [BusOp.recv length (A.master_recv c.dev length).1
              (A.master_recv c.dev length).2.1]⟩) := by
  simp only [ektf2k_recv, i2c_master_recv]
  by_cases hr : (A.master_recv c.dev length).1 = length
  · simp [hr]
  · simp [hr]

theorem hello_loop_eq (buffer : List Byte) :
    ektf2k_hello_loop buffer 4 0
      = if rd buffer 0 = 0x55 ∧ rd buffer 1 = 0x55 ∧ rd buffer 2 = 0x55 ∧ rd buffer 3 = 0x55
        then 0 else -1 := by
  simp only [ektf2k_hello_loop, EKTF2K_DATA_HELLO]
  by_cases h0 : rd buffer 0 = 0x55 <;> by_cases h1 : rd buffer 1 = 0x55 <;>
    by_cases h2 : rd buffer 2 = 0x55 <;> by_cases h3 : rd buffer 3 = 0x55 <;>
    simp [h0, h1, h2, h3]

theorem hello_unfold {σ : Type} (A : I2cAdapter σ) (c : Client σ) :
    ektf2k_hello A c
      = (if (A.master_recv c.dev 4).1 = 4 ∧ rd (A.master_recv c.dev 4).2.1 0 = 0x55
              ∧ rd (A.master_recv c.dev 4).2.1 1 = 0x55 ∧ rd (A.master_recv c.dev 4).2.1 2 = 0x55
              ∧ rd (A.master_recv c.dev 4).2.1 3 = 0x55 then 0 else -1,
          ⟨(A.master_recv c.dev 4).2.2,
            c.trace ++ [BusOp.recv 4 (A.master_recv c.dev 4).1 (A.master_recv c.dev 4).2.1]⟩) := by
  simp only [ektf2k_hello, recv_unfold, hello_loop_eq]
  by_cases hr : (A.master_recv c.dev 4).1 = 4
  · simp [hr]
  · simp [hr]

theorem transcv_dev_only {σ : Type} (A : I2cAdapter σ) (c c' : Client σ) (buffer : List Byte)
    (length : Int) (h : c.dev = c'.dev) :
    (ektf2k_transcv A c buffer length).1 = (ektf2k_transcv A c' buffer length).1
      ∧ (ektf2k_transcv A c buffer length).2.1 = (ektf2k_transcv A c' buffer length).2.1
      ∧ (ektf2k_transcv A c buffer length).2.2.dev
        = (ektf2k_transcv A c' buffer length).2.2.dev := by
  rw [transcv_unfold, transcv_unfold, h]
  by_cases hs : (A.master_send c'.dev buffer length).1 = length
  · simp [hs]
  · simp [hs]

theorem transcv_trace_prefix {σ : Type} (A : I2cAdapter σ) (c : Client σ) (buffer : List Byte)
    (length : Int) :
    ∃ ops, (ektf2k_transcv A c buffer length).2.2.trace
      = c.trace ++ BusOp.send buffer length (A.master_send c.dev buffer length).1 :: ops := by
  rw [transcv_unfold]
  by_cases hs : (A.master_send c.dev buffer length).1 = length
  · exact ⟨_, by simp [hs]; rfl⟩
  · exact ⟨[], by simp [hs]⟩

theorem get_firmware_infos_dev_only {σ : Type} (A : I2cAdapter σ) (c c' : Client σ)
    (data : ektf2k_data) (h : c.dev = c'.dev) :
    (ektf2k_get_firmware_infos A c data).1 = (ektf2k_get_firmware_infos A c' data).1
      ∧ (ektf2k_get_firmware_infos A c data).2.1 = (ektf2k_get_firmware_infos A c' data).2.1
      ∧ (ektf2k_get_firmware_infos A c data).2.2.dev
        = (ektf2k_get_firmware_infos A c' data).2.2.dev := by
  obtain ⟨a1, a2, a3⟩ := transcv_dev_only A c c'
    [byte EKTF2K_REQUEST, byte EKTF2K_FW_VER, 0x00, 0x01] 4 h
  obtain ⟨b1, b2, b3⟩ := transcv_dev_only A
    (msleep (ektf2k_transcv A c [byte EKTF2K_REQUEST, byte EKTF2K_FW_VER, 0x00, 0x01] 4).2.2 10)
    (msleep (ektf2k_transcv A c' [byte EKTF2K_REQUEST, byte EKTF2K_FW_VER, 0x00, 0x01] 4).2.2 10)
    [byte EKTF2K_REQUEST, byte EKTF2K_WIDTH, 0x00, 0x00] 4 a3
  obtain ⟨c1, c2, c3⟩ := transcv_dev_only A
    (msleep (ektf2k_transcv A
      (msleep (ektf2k_transcv A c [byte EKTF2K_REQUEST, byte EKTF2K_FW_VER, 0x00, 0x01] 4).2.2 10)
      [byte EKTF2K_REQUEST, byte EKTF2K_WIDTH, 0x00, 0x00] 4).2.2 10)
    (msleep (ektf2k_transcv A
      (msleep (ektf2k_transcv A c' [byte EKTF2K_REQUEST, byte EKTF2K_FW_VER, 0x00, 0x01] 4).2.2 10)
      [byte EKTF2K_REQUEST, byte EKTF2K_WIDTH, 0x00, 0x00] 4).2.2 10)
    [byte EKTF2K_REQUEST, byte EKTF2K_HEIGHT, 0x00, 0x00] 4 b3
  simp only [ektf2k_get_firmware_infos, a1, a2, b1, b2, c1, c2]
  split
  · exact ⟨rfl, rfl, a3⟩
  · split
    · exact ⟨rfl, rfl, b3⟩
    · split
      · exact ⟨rfl, rfl, c3⟩
      · exact ⟨rfl, rfl, c3⟩

theorem transcv_trace_extends {σ : Type} (A : I2cAdapter σ) (c : Client σ)
    (buffer : List Byte) (length : Int) :
    ∃ ops, (ektf2k_transcv A c buffer length).2.2.trace = c.trace ++ ops := by
  obtain ⟨ops, h⟩ := transcv_trace_prefix A c buffer length
  exact ⟨_ :: ops, h⟩

theorem get_firmware_infos_trace_prefix {σ : Type} (A : I2cAdapter σ) (c : Client σ)
    (data : ektf2k_data) :
    ∃ ops, (ektf2k_get_firmware_infos A c data).2.2.trace
      = c.trace ++ BusOp.send [0x53, 0x00, 0x00, 0x01] 4
          (A.master_send c.dev [0x53, 0x00, 0x00, 0x01] 4).1 :: ops := by
  have hfw : ([byte EKTF2K_REQUEST, byte EKTF2K_FW_VER, 0x00, 0x01] : List Byte)
      = [0x53, 0x00, 0x00, 0x01] := by decide
  obtain ⟨o1, h1⟩ := transcv_trace_prefix A c [0x53, 0x00, 0x00, 0x01] 4
  obtain ⟨o2, h2⟩ := transcv_trace_extends A
    (msleep (ektf2k_transcv A c [0x53, 0x00, 0x00, 0x01] 4).2.2 10)
    [byte EKTF2K_REQUEST, byte EKTF2K_WIDTH, 0x00, 0x00] 4
  obtain ⟨o3, h3⟩ := transcv_trace_extends A
    (msleep (ektf2k_transcv A
      (msleep (ektf2k_transcv A c [0x53, 0x00, 0x00, 0x01] 4).2.2 10)
      [byte EKTF2K_REQUEST, byte EKTF2K_WIDTH, 0x00, 0x00] 4).2.2 10)
    [byte EKTF2K_REQUEST, byte EKTF2K_HEIGHT, 0x00, 0x00] 4
  simp only [msleep] at h2 h3
  simp only [ektf2k_get_firmware_infos, hfw, msleep]
  split
  · exact ⟨o1, h1⟩
  · split
    · exact ⟨o1 ++ [BusOp.msleep 10] ++ o2, by rw [h2, h1]; simp⟩
    · split
      · exact ⟨o1 ++ [BusOp.msleep 10] ++ o2 ++ [BusOp.msleep 10] ++ o3, by
          rw [h3, h2, h1]; simp⟩
      · exact ⟨o1 ++ [BusOp.msleep 10] ++ o2 ++ [BusOp.msleep 10] ++ o3, by
          rw [h3, h2, h1]; simp⟩

theorem probe_client {σ : Type} (A : I2cAdapter σ) (c : Client σ) (ctp_data : ektf2k_ctp_data)
    (p : Platform) (hk : p.kzalloc_ok = true) (hi : p.ioremap_ok = true) (hg : p.gpio_int ≠ 0) :
    (ektf2k_probe A c ctp_data p).2.2
      = (ektf2k_get_firmware_infos A (msleep (ektf2k_hello A c).2 10) ⟨ctp_data, 0, 0, 0⟩).2.2 := by
  simp only [ektf2k_probe, ektf2k_ctp_gpio, ektf2k_ctp_irq_mux, ektf2k_ctp_reset, hk, hi, hg]
  simp only [Bool.true_eq_false, if_false, lt_self_iff_false]
  split
  · rfl
  · split
    · rfl
    · split
      · rfl
      · split
        · split <;> rfl
        · rfl

theorem probe_dev_only {σ : Type} (A : I2cAdapter σ) (c c' : Client σ)
    (ctp_data : ektf2k_ctp_data) (p : Platform)
    (h : (A.master_recv c.dev 4).2.2 = (A.master_recv c'.dev 4).2.2) :
    (ektf2k_probe A c ctp_data p).1 = (ektf2k_probe A c' ctp_data p).1
      ∧ (ektf2k_probe A c ctp_data p).2.1 = (ektf2k_probe A c' ctp_data p).2.1 := by
  have hdev : (msleep (ektf2k_hello A c).2 10).dev = (msleep (ektf2k_hello A c').2 10).dev := by
    rw [hello_unfold, hello_unfold]
    exact h
  obtain ⟨e1, e2, -⟩ := get_firmware_infos_dev_only A (msleep (ektf2k_hello A c).2 10)
    (msleep (ektf2k_hello A c').2 10) ⟨ctp_data, 0, 0, 0⟩ hdev
  unfold ektf2k_probe
  dsimp only
  generalize ektf2k_get_firmware_infos A (msleep (ektf2k_hello A c).2 10) ⟨ctp_data, 0, 0, 0⟩
    = x at e1 e2 ⊢
  generalize ektf2k_get_firmware_infos A (msleep (ektf2k_hello A c').2 10) ⟨ctp_data, 0, 0, 0⟩
    = y at e1 e2 ⊢
  obtain ⟨x1, x2, x3⟩ := x
  obtain ⟨y1, y2, y3⟩ := y
  dsimp only at e1 e2
  subst e1 e2
  dsimp only
  by_cases h1 : p.kzalloc_ok = false
  · simp [h1]
  by_cases h2 : ektf2k_ctp_gpio p < 0
  · simp [h1, h2]
  by_cases h3 : ektf2k_ctp_irq_mux p < 0
  · simp [h1, h2, h3]
  by_cases h4 : ektf2k_ctp_reset p < 0
  · simp [h1, h2, h3, h4]
  simp only [h1, h2, h3, h4, if_false]
  split_ifs <;> exact ⟨rfl, rfl⟩

/-- C11: `ektf2k_hello` returns 0 exactly when the receive answers 4 and the four
bytes received are all `0x55`, and -1 otherwise, so the frame `55 55 55 54` fails the
check. Once the platform setup of `ektf2k_probe` has passed, the probe goes on,
whatever the hello receive answered, with a sleep of 10 ms and the `FW_VER` request
of `ektf2k_get_firmware_infos`, and it leaves the bus as that function leaves it.
The return code of the probe and the session it attaches are the same for two hello
exchanges that leave the device in the same state, whatever frame or count each of
them answered: a mismatch or a failed receive gives what a matching frame gives. -/
theorem hello_nonfatal {σ : Type} (A : I2cAdapter σ) (c c' : Client σ)
    (ctp_data : ektf2k_ctp_data) (p : Platform) :
    (ektf2k_hello A c).1
        = (if (A.master_recv c.dev 4).1 = 4 ∧ rd (A.master_recv c.dev 4).2.1 0 = 0x55
                ∧ rd (A.master_recv c.dev 4).2.1 1 = 0x55
                ∧ rd (A.master_recv c.dev 4).2.1 2 = 0x55
                ∧ rd (A.master_recv c.dev 4).2.1 3 = 0x55 then 0 else -1)
      ∧ (ektf2k_hello scriptedBus ⟨[[0x55, 0x55, 0x55, 0x54]], []⟩).1 = -1
      ∧ (p.kzalloc_ok = true → p.ioremap_ok = true → p.gpio_int ≠ 0 →
          (ektf2k_probe A c ctp_data p).2.2
              = (ektf2k_get_firmware_infos A (msleep (ektf2k_hello A c).2 10)
                  ⟨ctp_data, 0, 0, 0⟩).2.2
            ∧ ∃ ops, (ektf2k_probe A c ctp_data p).2.2.trace
                = c.trace ++ BusOp.recv 4 (A.master_recv c.dev 4).1 (A.master_recv c.dev 4).2.1
                    :: BusOp.msleep 10
                    :: BusOp.send [0x53, 0x00, 0x00, 0x01] 4
                        (A.master_send (A.master_recv c.dev 4).2.2 [0x53, 0x00, 0x00, 0x01] 4).1
                    :: ops)
      ∧ ((A.master_recv c.dev 4).2.2 = (A.master_recv c'.dev 4).2.2 →
          (ektf2k_probe A c ctp_data p).1 = (ektf2k_probe A c' ctp_data p).1
            ∧ (ektf2k_probe A c ctp_data p).2.1 = (ektf2k_probe A c' ctp_data p).2.1) := by
  refine ⟨?_, by decide, ?_, probe_dev_only A c c' ctp_data p⟩
  · rw [hello_unfold]
  · intro hk hi hg
    have hc := probe_client A c ctp_data p hk hi hg
    refine ⟨hc, ?_⟩
    obtain ⟨ops, ho⟩ := get_firmware_infos_trace_prefix A (msleep (ektf2k_hello A c).2 10)
      ⟨ctp_data, 0, 0, 0⟩
    refine ⟨ops, ?_⟩
    rw [hc, ho]
    simp [msleep, hello_unfold]

theorem hello_nonfatal_witness :
    (ektf2k_hello scriptedRcBus ⟨(4, [0x55, 0x55, 0x55, 0x55]) :: exampleAnswers, []⟩).1 = 0
      ∧ (ektf2k_hello scriptedRcBus ⟨(4, [0x55, 0x55, 0x55, 0x54]) :: exampleAnswers, []⟩).1 = -1
      ∧ (ektf2k_hello scriptedRcBus ⟨(-5, []) :: exampleAnswers, []⟩).1 = -1
      ∧ (ektf2k_probe scriptedRcBus ⟨(4, [0x55, 0x55, 0x55, 0x55]) :: exampleAnswers, []⟩
          exampleCtp examplePlatform).1 = 0
      ∧ (ektf2k_probe scriptedRcBus ⟨(4, [0x55, 0x55, 0x55, 0x54]) :: exampleAnswers, []⟩
          exampleCtp examplePlatform).1 = 0
      ∧ (ektf2k_probe scriptedRcBus ⟨(-5, []) :: exampleAnswers, []⟩
          exampleCtp examplePlatform).1 = 0 := by
  have hgood : (ektf2k_probe scriptedRcBus ⟨(4, [0x55, 0x55, 0x55, 0x55]) :: exampleAnswers, []⟩
      exampleCtp examplePlatform).1 = 0 := by decide
  refine ⟨by decide, by decide, by decide, hgood, ?_, ?_⟩
  · exact ((hello_nonfatal scriptedRcBus
      ⟨(4, [0x55, 0x55, 0x55, 0x54]) :: exampleAnswers, []⟩
      ⟨(4, [0x55, 0x55, 0x55, 0x55]) :: exampleAnswers, []⟩
      exampleCtp examplePlatform).2.2.2 rfl).1.trans hgood
  · exact ((hello_nonfatal scriptedRcBus
      ⟨(-5, []) :: exampleAnswers, []⟩
      ⟨(4, [0x55, 0x55, 0x55, 0x55]) :: exampleAnswers, []⟩
      exampleCtp examplePlatform).2.2.2 rfl).1.trans hgood

/-! ## Driver attach: the sensor dimensions -/

/-- C12 fails on the code: nothing in `ektf2k_get_firmware_infos` rejects a zero
dimension. A device that answers `WIDTH` with `52 63 00 00` makes the function
return 0 with `width = 0`, and `ektf2k_probe` attaches that session; the report frame
`exampleFrame` handled next by `ektf2k_irq` holds a slot that is not zero, and the
scaling of its `x` by `width` in `ektf2k_ctp_coordinates` is a division by zero, so
the report has no result. -/
theorem zero_width_attaches_then_divides_by_zero :
    (ektf2k_get_firmware_infos scriptedBus ⟨zeroWidthScript.tail, []⟩ ⟨exampleCtp, 0, 0, 0⟩).1 = 0
      ∧ (ektf2k_get_firmware_infos scriptedBus ⟨zeroWidthScript.tail, []⟩
          ⟨exampleCtp, 0, 0, 0⟩).2.1.width = 0
      ∧ (ektf2k_probe scriptedBus ⟨zeroWidthScript, []⟩ exampleCtp examplePlatform).1 = 0
      ∧ (ektf2k_probe scriptedBus ⟨zeroWidthScript, []⟩ exampleCtp examplePlatform).2.1
        = some ⟨exampleCtp, 496, 0, 1024⟩
      ∧ (ektf2k_irq scriptedBus
          (ektf2k_probe scriptedBus ⟨zeroWidthScript, []⟩ exampleCtp examplePlatform).2.2
          ⟨exampleCtp, 496, 0, 1024⟩).1 = none
      ∧ ektf2k_report ⟨exampleCtp, 496, 0, 1024⟩ exampleFrame = none
      ∧ ektf2k_report_coordinates (exampleFrame.drop 2) = some (598, 308)
      ∧ ektf2k_ctp_coordinates exampleCtp 598 308 0 1024 = none := by
  refine ⟨by decide, by decide, by decide, by decide, by decide, by decide, by decide,
    by decide⟩

end Ektf2k
